import Mathlib

/-!
Verification of the Scenic-Rider scoring core (src/calculate_score.py).

The file shallowly embeds the pure decision logic of `calculate_score`:
the keyword-based taxonomy builder `get_id_by_name` (lines 22-32), the
pixel aggregation (lines 69-88), the context / status chain (lines 91-117),
the score formula with clamping (lines 119-128), the debug breakdown
(lines 131-144) and the image-open error path (lines 49-53).

Python floats are modelled as exact rationals (ℚ); every constant of the
source (0.10, 0.05, 0.40, 0.5, 1.5, 2.0, 0.3, 0.2, 0.1, 0.02) is exactly
representable, so no rounding questions arise on the scoring path.  A
second model (`calculate_score_pyfloat`) keeps IEEE NaN behaviour, which
matters only when the total pixel count is zero.
-/

/-- Status labels returned by `calculate_score`.  Each constructor stands for
one of the exact status strings of the source: `Waterfront 🌊`,
`Dedicated Bike Lane 🚲`, `Green Tunnel 🌳`, `City St (No Bike Lane) 🚗`,
`Mixed / Urban`, and `Error` (the open-failure path at line 53). -/
inductive Status where
  | Waterfront
  | DedicatedBikeLane
  | GreenTunnel
  | CityStreetNoBikeLane
  | MixedUrban
  | Error
  deriving DecidableEq, Repr

/-- Python contiguous containment `needle in hay` on character lists: true
iff `needle` occurs as a contiguous run inside `hay` (the empty needle is
contained in everything, as in Python). -/
def sublistAt (needle : List Char) : List Char → Bool
  | [] => needle.isEmpty
  | c :: t => needle.isPrefixOf (c :: t) || sublistAt needle t

/-- Line 30 of the source: `key.lower() in label.lower()`, the
case-insensitive substring test. -/
def lowerIn (key lbl : String) : Bool :=
  sublistAt (key.toList.map Char.toLower) (lbl.toList.map Char.toLower)

/-- Lines 22-32 of the source, `get_id_by_name`: scan the vocabulary
(modelled as an association list id ↦ label, the iteration order of
`model.config.id2label.items()`), append the id once per keyword that
matches its label, then strip duplicates (`list(set(found_ids))`; the
claims only concern the result as a set of ids, so duplicate removal is
the faithful reading of the set round-trip). -/
def get_id_by_name (id2label : List (Nat × String)) (keyword_list : List String) : List Nat :=
  (id2label.flatMap (fun p =>
    keyword_list.filterMap (fun key => if lowerIn key p.2 then some p.1 else none))).dedup

/-- Lines 91-117 of the source: the context check.  Input ratios in the
order they are computed (bike lane, water, nature, road, ugly); returns
(status, bonus, penalty, effective ugly ratio).  The source halves the
ugly pixel count inside the waterfront branch and divides by the total at
line 125; on the ratio level this is exactly halving the ugly ratio. -/
def context_check (bike_lane_ratio water_ratio nature_ratio road_ratio ugly_ratio : ℚ) :
    Status × ℚ × ℚ × ℚ :=
  if water_ratio > 10/100 then
    (Status.Waterfront, 3/10, 0, ugly_ratio * (1/2))
  else if bike_lane_ratio > 5/100 then
    (Status.DedicatedBikeLane, 2/10, 0, ugly_ratio)
  else if nature_ratio > 40/100 then
    (Status.GreenTunnel, 1/10, 0, ugly_ratio)
  else if road_ratio > 40/100 then
    (Status.CityStreetNoBikeLane, 0, 2/10, ugly_ratio)
  else
    (Status.MixedUrban, 0, 0, ugly_ratio)

/-- Lines 119-128 of the source: the score formula and the clamp,
`max(0.0, min(1.0, score))`.  `ugly_eff` is the (possibly halved)
effective ugly ratio produced by the context check. -/
def score_calc (bike_lane_ratio water_ratio nature_ratio ugly_eff bonus penalty : ℚ) : ℚ :=
  let score := 1/2 + nature_ratio * (1/2) + water_ratio * (3/2) + bike_lane_ratio * 2
  let score := score - ugly_eff * (1/2) + bonus - penalty
  max 0 (min 1 score)

/-- Lines 91-128 of the source on the level of the five group ratios:
context check, then score formula, then clamp; returns (score, status). -/
def calculate_score_ratios (bike_lane_ratio water_ratio nature_ratio road_ratio ugly_ratio : ℚ) :
    ℚ × Status :=
  let ctx := context_check bike_lane_ratio water_ratio nature_ratio road_ratio ugly_ratio
  (score_calc bike_lane_ratio water_ratio nature_ratio ctx.2.2.2 ctx.2.1 ctx.2.2.1, ctx.1)

/-- The Context Classifier exactly as the spec's rule table (section 4.3)
writes it: returns (status, bonus, penalty, ugly_discount), for comparison
with the code-shaped `context_check`. -/
def classify_spec (bike_lane_ratio water_ratio nature_ratio road_ratio : ℚ) :
    Status × ℚ × ℚ × ℚ :=
  if water_ratio > 10/100 then (Status.Waterfront, 3/10, 0, 1/2)
  else if bike_lane_ratio > 5/100 then (Status.DedicatedBikeLane, 2/10, 0, 1)
  else if nature_ratio > 40/100 then (Status.GreenTunnel, 1/10, 0, 1)
  else if road_ratio > 40/100 then (Status.CityStreetNoBikeLane, 0, 2/10, 1)
  else (Status.MixedUrban, 0, 0, 1)

/-- The Score Synthesizer exactly as the spec's formula (section 4.4)
writes it, term order included, for comparison with the source. -/
def synthesize_spec (bike_lane_ratio water_ratio nature_ratio ugly_ratio bonus penalty
    ugly_discount : ℚ) : ℚ :=
  let effective_ugly_ratio := ugly_ratio * ugly_discount
  let score := 1/2 + nature_ratio * (1/2) + water_ratio * (3/2) + bike_lane_ratio * 2
    - effective_ugly_ratio * (1/2) + bonus - penalty
  max 0 (min 1 score)

/-- The five class-id groups computed once at startup (lines 36-40 of the
source) from `get_id_by_name`. -/
structure Groups where
  bike_lane_ids : List Nat
  water_ids : List Nat
  nature_ids : List Nat
  road_ids : List Nat
  ugly_ids : List Nat

/-- A label map: the 2-dimensional grid of per-pixel class ids produced by
the external segmentation model (`pred_seg`), row by row. -/
def LabelMap : Type := List (List Nat)

/-- Line 70 of the source, `pred_seg.size`: the total pixel count. -/
def totalPixels (m : LabelMap) : Nat :=
  (List.map List.length m).sum

/-- The numpy idiom `np.sum(pred_seg == i)`: how many pixels carry class
id `i`. -/
def countClass (m : LabelMap) (i : Nat) : Nat :=
  (List.map (fun row => row.count i) m).sum

/-- Lines 72-76 of the source, `sum(np.sum(pred_seg == i) for i in IDS)`:
the pixel count of one class-id group. -/
def groupCount (m : LabelMap) (ids : List Nat) : Nat :=
  (ids.map (countClass m)).sum

/-- The numpy call `np.unique(pred_seg)` at line 133: the distinct class
ids present in the label map, in ascending order. -/
def uniqueIds (m : LabelMap) : List Nat :=
  List.insertionSort (· ≤ ·) (List.dedup (List.flatten m))

/-- Lines 136-139 of the source: vocabulary lookup with the stringified id
as fallback label when the id has no vocabulary entry. -/
def pyLabel (id2label : List (Nat × String)) (i : Nat) : String :=
  match id2label.lookup i with
  | some lbl => lbl
  | none => toString i

/-- Lines 131-144 of the source: the debug breakdown.  One (label, ratio)
entry per distinct class id of the label map whose pixel ratio exceeds the
2 percent visibility threshold, in the ascending-id order `np.unique`
produces. -/
def debugReport (m : LabelMap) (id2label : List (Nat × String)) : List (String × ℚ) :=
  let total := totalPixels m
  (uniqueIds m).filterMap (fun i =>
    let pct : ℚ := (countClass m i : ℚ) / (total : ℚ)
    if pct > 2/100 then some (pyLabel id2label i, pct) else none)

/-- Lines 56-146 of the source after inference: pixel counting, ratio
computation, scoring and the optional debug breakdown.  The returned pair
is ((score, status), printed breakdown); with `debug = false` the source
prints nothing, modelled as the empty breakdown. -/
def calculate_score_map (m : LabelMap) (g : Groups) (id2label : List (Nat × String))
    (debug : Bool) : (ℚ × Status) × List (String × ℚ) :=
  let total := totalPixels m
  let result := calculate_score_ratios
    ((groupCount m g.bike_lane_ids : ℚ) / (total : ℚ))
    ((groupCount m g.water_ids : ℚ) / (total : ℚ))
    ((groupCount m g.nature_ids : ℚ) / (total : ℚ))
    ((groupCount m g.road_ids : ℚ) / (total : ℚ))
    ((groupCount m g.ugly_ids : ℚ) / (total : ℚ))
  (result, if debug then debugReport m id2label else [])

/-- Lines 45-146 of the source, the whole entry point: opening the image
(and running the external segmentation) is modelled as an `Option LabelMap`
argument; `none` is the `except` path of lines 51-53, which returns the
neutral pair `(0.5, "Error")` without touching the scoring logic. -/
def calculate_score (opened : Option LabelMap) (g : Groups) (id2label : List (Nat × String))
    (debug : Bool) : (ℚ × Status) × List (String × ℚ) :=
  match opened with
  | none => ((1/2, Status.Error), [])
  | some m => calculate_score_map m g id2label debug

/-- A Python/numpy float on the scoring path: `some q` is the finite value
`q`, `none` is NaN.  Positive or negative infinity cannot arise here: the
only divisions are pixel counts over the total pixel count, and when the
total is zero every such count is zero as well, so a zero divisor always
means `0 / 0`, which numpy evaluates to NaN. -/
def PyF : Type := Option ℚ

/-- Division of a finite numerator by the integer pixel total, numpy
semantics: a zero divisor yields NaN (the numerator is then zero, see
`PyF`). -/
def pyDiv (x : ℚ) (n : Nat) : PyF :=
  if n = 0 then none else some (x / n)

/-- Addition with NaN propagation. -/
def pyAdd (a b : PyF) : PyF :=
  match a, b with
  | some x, some y => some (x + y)
  | _, _ => none

/-- Subtraction with NaN propagation. -/
def pySub (a b : PyF) : PyF :=
  match a, b with
  | some x, some y => some (x - y)
  | _, _ => none

/-- Multiplication with NaN propagation. -/
def pyMul (a b : PyF) : PyF :=
  match a, b with
  | some x, some y => some (x * y)
  | _, _ => none

/-- The strict comparison `a < b` on floats: any comparison against NaN is
false. -/
def pyLt (a b : PyF) : Bool :=
  match a, b with
  | some x, some y => decide (x < y)
  | _, _ => false

/-- CPython `min(a, b)`: returns `b` exactly when `b < a`, so
`min(1.0, NaN)` is `1.0`. -/
def pyMin (a b : PyF) : PyF :=
  if pyLt b a then b else a

/-- CPython `max(a, b)`: returns `b` exactly when `a < b`. -/
def pyMax (a b : PyF) : PyF :=
  if pyLt a b then b else a

/-- Lines 69-146 of the source once more, now under float semantics with
NaN (`PyF`), faithful even when the label map is empty: ratios are formed
with `pyDiv`, the threshold comparisons are float comparisons (false on
NaN), the ugly pixel count is halved inside the waterfront branch and
divided by the total at line 125, and the clamp is CPython
`max(0.0, min(1.0, score))`. -/
def calculate_score_pyfloat (m : LabelMap) (g : Groups) : PyF × Status :=
  let total := totalPixels m
  let bike_lane_ratio := pyDiv (groupCount m g.bike_lane_ids : ℚ) total
  let water_ratio := pyDiv (groupCount m g.water_ids : ℚ) total
  let nature_ratio := pyDiv (groupCount m g.nature_ids : ℚ) total
  let ugly_px : ℚ := (groupCount m g.ugly_ids : ℚ)
  let ctx : Status × ℚ × ℚ × ℚ :=
    if pyLt (some (10/100)) water_ratio then
      (Status.Waterfront, 3/10, 0, ugly_px * (1/2))
    else if pyLt (some (5/100)) bike_lane_ratio then
      (Status.DedicatedBikeLane, 2/10, 0, ugly_px)
    else if pyLt (some (40/100)) nature_ratio then
      (Status.GreenTunnel, 1/10, 0, ugly_px)
    else if pyLt (some (40/100)) (pyDiv (groupCount m g.road_ids : ℚ) total) then
      (Status.CityStreetNoBikeLane, 0, 2/10, ugly_px)
    else
      (Status.MixedUrban, 0, 0, ugly_px)
  let score := pyAdd (pyAdd (pyAdd (some (1/2)) (pyMul nature_ratio (some (1/2))))
    (pyMul water_ratio (some (3/2)))) (pyMul bike_lane_ratio (some 2))
  let score := pySub (pyAdd (pySub score (pyMul (pyDiv ctx.2.2.2 total) (some (1/2))))
    (some ctx.2.1)) (some ctx.2.2.1)
  let score := pyMax (some 0) (pyMin (some 1) score)
  (score, ctx.1)

/-- Clamping two equal raw scores gives equal results. -/
lemma clamp_congr {x y : ℚ} (h : x = y) : max 0 (min 1 x) = max 0 (min 1 y) := by
  rw [h]

/-- C1: for every ratio vector, the score computed by lines 91-128 of the
source equals clamp(0.5 + nature*0.5 + water*1.5 + bike_lane*2.0
- (ugly*ugly_discount)*0.5 + bonus - penalty, 0, 1) for the
(status, bonus, penalty, ugly_discount) tuple the Context Classifier
chooses, and the concrete scenario water_ratio = 0.12, ugly_ratio = 0.20,
all other ratios 0, yields status Waterfront and score exactly 0.93. -/
theorem score_matches_spec_formula :
    ∀ bl w n r u : ℚ,
      (calculate_score_ratios bl w n r u).1 =
        synthesize_spec bl w n u (classify_spec bl w n r).2.1 (classify_spec bl w n r).2.2.1
          (classify_spec bl w n r).2.2.2 ∧
      (calculate_score_ratios bl w n r u).2 = (classify_spec bl w n r).1 ∧
      calculate_score_ratios 0 (12/100) 0 0 (20/100) = (93/100, Status.Waterfront) := by
  intro bl w n r u
  refine ⟨?_, ?_, ?_⟩
  · simp only [calculate_score_ratios, context_check, classify_spec, score_calc, synthesize_spec]
    split_ifs <;> exact clamp_congr (by ring)
  · simp only [calculate_score_ratios, context_check, classify_spec]
    split_ifs <;> rfl
  · norm_num [calculate_score_ratios, context_check, score_calc]

/-- C2: the Context Classifier returns exactly one status from the closed
five-element set, by first-match evaluation of the ordered rules
water > 0.10, bike_lane > 0.05, nature > 0.40, road > 0.40, else mixed,
with the bonus/penalty/effective-ugly values of the source; in particular
water_ratio = 0.15 with bike_lane_ratio = 0.06 gives Waterfront, not
DedicatedBikeLane. -/
theorem context_check_rule_order :
    ∀ bl w n r u : ℚ,
      (context_check bl w n r u).1 ∈
        [Status.Waterfront, Status.DedicatedBikeLane, Status.GreenTunnel,
          Status.CityStreetNoBikeLane, Status.MixedUrban] ∧
      (w > 10/100 →
        context_check bl w n r u = (Status.Waterfront, 3/10, 0, u * (1/2))) ∧
      (¬ w > 10/100 → bl > 5/100 →
        context_check bl w n r u = (Status.DedicatedBikeLane, 2/10, 0, u)) ∧
      (¬ w > 10/100 → ¬ bl > 5/100 → n > 40/100 →
        context_check bl w n r u = (Status.GreenTunnel, 1/10, 0, u)) ∧
      (¬ w > 10/100 → ¬ bl > 5/100 → ¬ n > 40/100 → r > 40/100 →
        context_check bl w n r u = (Status.CityStreetNoBikeLane, 0, 2/10, u)) ∧
      (¬ w > 10/100 → ¬ bl > 5/100 → ¬ n > 40/100 → ¬ r > 40/100 →
        context_check bl w n r u = (Status.MixedUrban, 0, 0, u)) ∧
      (context_check (6/100) (15/100) n r u).1 = Status.Waterfront := by
  intro bl w n r u
  refine ⟨?_, fun h1 => ?_, fun h1 h2 => ?_, fun h1 h2 h3 => ?_, fun h1 h2 h3 h4 => ?_,
    fun h1 h2 h3 h4 => ?_, ?_⟩
  · simp only [context_check]
    split_ifs <;> simp
  · simp [context_check, h1]
  · simp [context_check, h1, h2]
  · simp [context_check, h1, h2, h3]
  · simp [context_check, h1, h2, h3, h4]
  · simp [context_check, h1, h2, h3, h4]
  · norm_num [context_check]

/-- C3: the clamped score is always inside [0, 1], whatever ratios, bonus,
penalty and effective ugly value are fed into the Score Synthesizer, and
the saturated case water_ratio = 1, bike_lane_ratio = 1 returns exactly 1. -/
theorem score_always_in_unit_interval :
    ∀ bl w n ue bonus penalty : ℚ,
      0 ≤ score_calc bl w n ue bonus penalty ∧
      score_calc bl w n ue bonus penalty ≤ 1 ∧
      (calculate_score_ratios 1 1 0 0 0).1 = 1 := by
  intro bl w n ue bonus penalty
  refine ⟨le_max_left 0 _, max_le (by norm_num) (min_le_left 1 _), ?_⟩
  norm_num [calculate_score_ratios, context_check, score_calc]

/-- C4: an empty label map (total pixel count 0) is not rejected: under
the float semantics of the source every group ratio becomes NaN (numpy
0 / 0), every threshold comparison is false, NaN propagates into the raw
score, and the CPython clamp `max(0.0, min(1.0, NaN))` evaluates to 1.0,
so the code silently returns score 1.0 with status Mixed / Urban instead
of raising an input-contract error. -/
theorem empty_map_scores_without_guard :
    ∀ g : Groups, calculate_score_pyfloat [] g = (some 1, Status.MixedUrban) := by
  intro g
  have hz : ∀ ids : List Nat, groupCount [] ids = 0 := by
    intro ids
    simp [groupCount, countClass, List.sum_eq_zero_iff]
  simp [calculate_score_pyfloat, totalPixels, hz, pyDiv, pyLt, pyAdd, pySub, pyMul, pyMin,
    pyMax]

/-- C5: running the scorer with the debug flag on returns exactly the same
(score, status) pair as running it with the flag off; the debug breakdown
only reads the label map and vocabulary. -/
theorem debug_flag_does_not_change_result :
    ∀ (m : LabelMap) (g : Groups) (id2label : List (Nat × String)),
      (calculate_score_map m g id2label true).1 = (calculate_score_map m g id2label false).1 := by
  intro m g id2label
  rfl

/-- C7: the road ratio influences the result only through status selection
and the penalty attached to it: two inputs differing only in road ratio
that classify to the same status give identical results, and in particular
they do whenever both road ratios are at most 0.40, or whenever one of the
first three rules fires. -/
theorem road_ratio_only_acts_through_status :
    ∀ bl w n u r1 r2 : ℚ,
      ((calculate_score_ratios bl w n r1 u).2 = (calculate_score_ratios bl w n r2 u).2 →
        calculate_score_ratios bl w n r1 u = calculate_score_ratios bl w n r2 u) ∧
      (r1 ≤ 40/100 → r2 ≤ 40/100 →
        calculate_score_ratios bl w n r1 u = calculate_score_ratios bl w n r2 u) ∧
      ((w > 10/100 ∨ bl > 5/100 ∨ n > 40/100) →
        calculate_score_ratios bl w n r1 u = calculate_score_ratios bl w n r2 u) := by
  intro bl w n u r1 r2
  unfold calculate_score_ratios context_check
  refine ⟨?_, ?_, ?_⟩ <;> split_ifs <;> simp_all

/-- C9: when the input image cannot be opened, the entry point returns the
neutral pair (0.5, Error) instead of propagating the failure, and that
neutral score lies inside [0, 1]. -/
theorem open_failure_returns_neutral :
    ∀ (g : Groups) (id2label : List (Nat × String)) (debug : Bool),
      calculate_score none g id2label debug = ((1/2, Status.Error), []) ∧
      0 ≤ (calculate_score none g id2label debug).1.1 ∧
      (calculate_score none g id2label debug).1.1 ≤ 1 := by
  intro g id2label debug
  exact ⟨rfl, by norm_num [calculate_score], by norm_num [calculate_score]⟩

/-- C10: with the bike lane, nature, road and ugly ratios held fixed (the
ugly ratio being nonnegative, as every pixel ratio is), the returned score
is monotonically nondecreasing in the water ratio. -/
theorem score_monotone_in_water_ratio :
    ∀ bl n r u w1 w2 : ℚ, 0 ≤ u → w1 ≤ w2 →
      (calculate_score_ratios bl w1 n r u).1 ≤ (calculate_score_ratios bl w2 n r u).1 := by
  intro bl n r u w1 w2 hu hw
  unfold calculate_score_ratios context_check score_calc
  dsimp only
  split_ifs <;> exact max_le_max le_rfl (min_le_min le_rfl (by linarith))

/-- Witness for C10 at the concrete input bl = n = r = u = 0, w1 = 0,
w2 = 1. -/
theorem score_monotone_in_water_ratio_witness :
    (calculate_score_ratios 0 0 0 0 0).1 ≤ (calculate_score_ratios 0 1 0 0 0).1 :=
  score_monotone_in_water_ratio 0 0 0 0 0 1 (by norm_num) (by norm_num)

/-- Boolean list-prefix test characterised as an append equation. -/
lemma isPrefixOf_eq_true_iff : ∀ l1 l2 : List Char, l1.isPrefixOf l2 = true ↔ ∃ t, l1 ++ t = l2
  | [], l2 => by simp [List.isPrefixOf]
  | a :: t1, [] => by simp [List.isPrefixOf]
  | a :: t1, b :: t2 => by
    simp only [List.isPrefixOf, Bool.and_eq_true, beq_iff_eq, isPrefixOf_eq_true_iff t1 t2,
      List.cons_append, List.cons.injEq]
    constructor
    · rintro ⟨rfl, u, rfl⟩
      exact ⟨u, rfl, rfl⟩
    · rintro ⟨u, rfl, rfl⟩
      exact ⟨rfl, u, rfl⟩

/-- The containment test `sublistAt` holds exactly when the needle occurs
contiguously: the haystack splits as prefix ++ needle ++ suffix. -/
lemma sublistAt_iff (needle : List Char) :
    ∀ hay : List Char, sublistAt needle hay = true ↔ ∃ s t, hay = s ++ needle ++ t
  | [] => by
    simp only [sublistAt, List.isEmpty_iff]
    constructor
    · rintro rfl
      exact ⟨[], [], rfl⟩
    · rintro ⟨s, t, h⟩
      have h3 : s = [] ∧ needle = [] ∧ t = [] := by simpa using h.symm
      exact h3.2.1
  | c :: tl => by
    simp only [sublistAt, Bool.or_eq_true, isPrefixOf_eq_true_iff, sublistAt_iff needle tl]
    constructor
    · rintro (⟨t, ht⟩ | ⟨s, t, rfl⟩)
      · exact ⟨[], t, by simp [ht.symm]⟩
      · exact ⟨c :: s, t, rfl⟩
    · rintro ⟨s, t, h⟩
      cases s with
      | nil =>
        exact Or.inl ⟨t, by simpa using h.symm⟩
      | cons a s2 =>
        rw [List.cons_append, List.cons_append, List.cons.injEq] at h
        exact Or.inr ⟨s2, t, h.2⟩

/-- Membership in the result of `get_id_by_name`: the id of some
vocabulary entry one of whose keywords matches. -/
lemma mem_get_id_by_name {id2label : List (Nat × String)} {keyword_list : List String} {i : Nat} :
    i ∈ get_id_by_name id2label keyword_list ↔
      ∃ p ∈ id2label, p.1 = i ∧ ∃ key ∈ keyword_list, lowerIn key p.2 = true := by
  unfold get_id_by_name
  rw [List.mem_dedup, List.mem_flatMap]
  constructor
  · rintro ⟨p, hp, hi⟩
    rw [List.mem_filterMap] at hi
    obtain ⟨key, hkey, hsome⟩ := hi
    rw [Option.ite_none_right_eq_some, Option.some.injEq] at hsome
    exact ⟨p, hp, hsome.2, key, hkey, hsome.1⟩
  · rintro ⟨p, hp, rfl, key, hkey, hc⟩
    exact ⟨p, hp, List.mem_filterMap.mpr ⟨key, hkey, by simp [hc]⟩⟩

/-- C6: `get_id_by_name` returns exactly the set of class ids whose label
contains at least one keyword as a case-insensitive substring, and it
returns the empty list (not an error) exactly when no label matches any
keyword. -/
theorem get_id_by_name_exact :
    ∀ (id2label : List (Nat × String)) (keyword_list : List String),
      (∀ i, i ∈ get_id_by_name id2label keyword_list ↔
        ∃ lbl, (i, lbl) ∈ id2label ∧ ∃ key ∈ keyword_list,
          ∃ s t, lbl.toList.map Char.toLower = s ++ key.toList.map Char.toLower ++ t) ∧
      (get_id_by_name id2label keyword_list = [] ↔
        ∀ p ∈ id2label, ∀ key ∈ keyword_list, lowerIn key p.2 = false) := by
  intro id2label keyword_list
  constructor
  · intro i
    rw [mem_get_id_by_name]
    constructor
    · rintro ⟨p, hp, rfl, key, hkey, hc⟩
      rw [lowerIn, sublistAt_iff] at hc
      exact ⟨p.2, by simpa using hp, key, hkey, hc⟩
    · rintro ⟨lbl, hmem, key, hkey, s, t, hst⟩
      refine ⟨(i, lbl), hmem, rfl, key, hkey, ?_⟩
      rw [lowerIn, sublistAt_iff]
      exact ⟨s, t, hst⟩
  · rw [List.eq_nil_iff_forall_not_mem]
    constructor
    · intro h p hp key hkey
      by_contra hc
      rw [Bool.not_eq_false] at hc
      exact h p.1 (mem_get_id_by_name.mpr ⟨p, hp, rfl, key, hkey, hc⟩)
    · intro h i hi
      obtain ⟨p, hp, rfl, key, hkey, hc⟩ := mem_get_id_by_name.mp hi
      rw [h p hp key hkey] at hc
      cases hc

/-- Membership in `np.unique(pred_seg)` is occurrence in the label map. -/
lemma mem_uniqueIds {m : LabelMap} {i : Nat} : i ∈ uniqueIds m ↔ i ∈ List.flatten m := by
  unfold uniqueIds
  rw [(List.perm_insertionSort _ _).mem_iff, List.mem_dedup]

/-- C8: the debug breakdown lists (label, ratio) exactly for the class ids
occurring in the label map with pixel ratio strictly above 0.02, the id
order is ascending and duplicate-free (the `np.unique` order, not the
ratio order), and an id missing from the vocabulary is reported under its
stringified form instead of failing. -/
theorem debug_report_exact :
    ∀ (m : LabelMap) (id2label : List (Nat × String)),
      List.Sorted (· ≤ ·) (uniqueIds m) ∧
      (uniqueIds m).Nodup ∧
      (∀ i, i ∈ uniqueIds m ↔ i ∈ List.flatten m) ∧
      (∀ p, p ∈ debugReport m id2label ↔ ∃ i, i ∈ List.flatten m ∧
        (countClass m i : ℚ) / (totalPixels m : ℚ) > 2/100 ∧
        p = (pyLabel id2label i, (countClass m i : ℚ) / (totalPixels m : ℚ))) ∧
      (∀ i, id2label.lookup i = none → pyLabel id2label i = toString i) := by
  intro m id2label
  refine ⟨List.sorted_insertionSort _ _, ?_, fun i => mem_uniqueIds, ?_, ?_⟩
  · exact ((List.perm_insertionSort _ _).nodup_iff).mpr (List.nodup_dedup _)
  · intro p
    simp only [debugReport]
    rw [List.mem_filterMap]
    constructor
    · rintro ⟨i, hi, hsome⟩
      simp only [Option.ite_none_right_eq_some, Option.some.injEq] at hsome
      exact ⟨i, mem_uniqueIds.mp hi, hsome.1, hsome.2.symm⟩
    · rintro ⟨i, hi, hgt, rfl⟩
      exact ⟨i, mem_uniqueIds.mpr hi, by simp [hgt]⟩
  · intro i h
    simp [pyLabel, h]

/-- Division by a nonzero pixel total is finite. -/
lemma pyDiv_pos (x : ℚ) (n : Nat) (h : n ≠ 0) : pyDiv x n = some (x / n) :=
  if_neg h

/-- CPython min agrees with the mathematical min on finite values. -/
lemma pyMin_some (a b : ℚ) : pyMin (some a) (some b) = some (min a b) := by
  simp only [pyMin, pyLt, decide_eq_true_eq, min_def]
  split_ifs with h1 h2 h2 <;> first
    | rfl
    | exact absurd h2 (not_le_of_lt h1)
    | exact absurd (le_of_not_lt h1) h2

/-- CPython max agrees with the mathematical max on finite values. -/
lemma pyMax_some (a b : ℚ) : pyMax (some a) (some b) = some (max a b) := by
  simp only [pyMax, pyLt, decide_eq_true_eq, max_def]
  split_ifs with h1 h2 h2 <;> first
    | rfl
    | exact absurd (le_of_lt h1) h2
    | exact congrArg some (le_antisymm h2 (le_of_not_lt h1))

/-- On a label map with at least one pixel the NaN-aware float model
agrees exactly with the rational model: same status, and the float score
is the finite rational score. -/
lemma pyfloat_agrees :
    ∀ (m : LabelMap) (g : Groups) (id2label : List (Nat × String)), totalPixels m ≠ 0 →
      calculate_score_pyfloat m g =
        (some (calculate_score_map m g id2label false).1.1,
          (calculate_score_map m g id2label false).1.2) := by
  intro m g id2label h
  unfold calculate_score_pyfloat calculate_score_map calculate_score_ratios context_check
    score_calc
  simp only [pyDiv_pos _ _ h, pyLt, decide_eq_true_eq]
  split_ifs <;>
    (simp only [pyAdd, pySub, pyMul, pyMin_some, pyMax_some, Prod.mk.injEq]
     try exact ⟨congrArg some (clamp_congr (by ring)), trivial⟩)
